import Mathlib

/-!
A shallow embedding of the flash-loan callback protocol of this repository.

The repository contains the borrower-side contract
`contracts/FlashLoanTester.sol` (embedded here statement by statement) and
integration documentation/scripts.  The provider-side contract
`FlashLoanProvider` is an external, already-deployed collaborator that is not
part of the repository's sources; its `flashloan` operation is therefore
modelled from the spec (sections 4.2, 4.3 and 7) where a claim needs it, and
every such definition is marked `Modelled from the spec:` in its doc comment.

Conventions of the embedding:
* addresses and the opaque `params` word are natural numbers;
* `uint256` values are naturals; the one place the tester's own code can
  overflow under Solidity 0.8 checked arithmetic (`amount + fee`) carries an
  explicit bound check against `2 ^ 256`;
* token balances form a map `token → account → Nat`; the ERC-20 `transfer`
  moves funds when the sender's balance suffices and reverts otherwise
  (allowances are not needed by any claim and are omitted);
* a revert is an `Except.error` carrying the revert reason; the enclosing
  EVM transaction applies the resulting state only on success (`runTx`),
  which is how atomic rollback is rendered in a functional embedding.
-/

namespace FlashLoanSpec

/-- `2 ^ 256`, the bound of Solidity `uint256` arithmetic. -/
def U256 : Nat := 2 ^ 256

/-- Token balances: `bal token account` is `IERC20(token).balanceOf(account)`. -/
abbrev Balances := Nat → Nat → Nat

/-- Point update of one account's balance of one token. -/
def setBal (bal : Balances) (token acct v : Nat) : Balances :=
  fun t a => if t = token ∧ a = acct then v else bal t a

/-- Unconditional movement of `amt` units of `token` from `sender` to `rcpt`:
the debit happens first, so a self-transfer leaves the balance unchanged,
as in an ERC-20 implementation. -/
def moveBal (token sender rcpt amt : Nat) (bal : Balances) : Balances :=
  let b1 := setBal bal token sender (bal token sender - amt)
  setBal b1 token rcpt (b1 token rcpt + amt)

/-- Revert reasons.  The first five come from the tester contract's own
`require` strings and Solidity 0.8 checked-arithmetic / `abi.decode` panics;
the last four are the provider-side error taxonomy of the spec
(`ReentrancyRejected`, `PoolDisabled`, `InsufficientLiquidity`,
`InsufficientRepayment`).  The tester's require with reason Only flash loan
provider is what the spec calls the `Unauthorized` error kind. -/
inductive Err where
  | notOwner                 -- the require string: Not owner
  | onlyFlashLoanProvider    -- the require string: Only flash loan provider (spec: Unauthorized)
  | transferFailed           -- the require string: Transfer failed / ERC-20 insufficient balance
  | decodeFailed             -- abi.decode panic: params is not a valid TestMode
  | overflow                 -- Solidity 0.8 checked-arithmetic panic
  | ReentrancyRejected
  | PoolDisabled
  | InsufficientLiquidity
  | InsufficientRepayment
  deriving DecidableEq, Repr

/-- `IERC20(token).transfer` as seen by the tester: succeeds iff the sender's
balance suffices, reverts otherwise. -/
def erc20Transfer (token sender rcpt amt : Nat) (bal : Balances) :
    Except Err Balances :=
  if bal token sender < amt then .error .transferFailed
  else .ok (moveBal token sender rcpt amt bal)

/-- The tester contract's immutable storage, as set by the constructor:
`self` is `address(this)`, `owner = msg.sender` at deployment,
`flashLoanProvider` the constructor argument. -/
structure TesterContract where
  self : Nat
  owner : Nat
  flashLoanProvider : Nat
  deriving DecidableEq, Repr

/-- The constructor of `FlashLoanTester`: records the deployer as owner and
stores the provider address. -/
def mkTester (selfAddr msgSender provAddr : Nat) : TesterContract :=
  { self := selfAddr, owner := msgSender, flashLoanProvider := provAddr }

/-- The `TestMode` enum of `FlashLoanTester.sol`. -/
inductive TestMode where
  | SUCCESS
  | FAIL_NO_REPAY
  | FAIL_PARTIAL
  deriving DecidableEq, Repr

/-- `abi.encode(mode)`: the 32-byte word holding the enum's ordinal,
modelled as the natural number 0, 1 or 2. -/
def encodeMode : TestMode → Nat
  | .SUCCESS => 0
  | .FAIL_NO_REPAY => 1
  | .FAIL_PARTIAL => 2

/-- `abi.decode(params, (TestMode))`: succeeds exactly on the words 0, 1, 2
(Solidity's enum range check reverts on anything else). -/
def decodeMode (p : Nat) : Option TestMode :=
  if p = 0 then some .SUCCESS
  else if p = 1 then some .FAIL_NO_REPAY
  else if p = 2 then some .FAIL_PARTIAL
  else none

/-- `FlashLoanTester.executeOperation`, statement by statement:
caller check, decode of `params`, then the three test-mode branches
(SUCCESS transfers `amount + fee` back and returns true; FAIL_NO_REPAY
transfers nothing and returns false; FAIL_PARTIAL transfers only `amount`
and returns true).  Events are not observable state and are omitted. -/
def executeOperation (c : TesterContract) (msgSender token amount fee params : Nat)
    (bal : Balances) : Except Err (Balances × Bool) :=
  if msgSender = c.flashLoanProvider then
    match decodeMode params with
    | none => .error .decodeFailed
    | some .SUCCESS =>
        if U256 ≤ amount + fee then .error .overflow
        else
          match erc20Transfer token c.self c.flashLoanProvider (amount + fee) bal with
          | .error e => .error e
          | .ok b => .ok (b, true)
    | some .FAIL_NO_REPAY => .ok (bal, false)
    | some .FAIL_PARTIAL =>
        match erc20Transfer token c.self c.flashLoanProvider amount bal with
        | .error e => .error e
        | .ok b => .ok (b, true)
  else .error .onlyFlashLoanProvider

/-- Modelled from the spec: the global chain state a `flashloan` call touches.
`FlashLoanProvider` is external to the repository, so its observable state is
taken from spec sections 3, 4.2 and 6: token balances, a per-token pool
enabled flag, the two fee-accrual accounts (liquidity providers and protocol
treasury), and the reentrancy lock. -/
structure ChainSt where
  bal : Balances
  poolEnabled : Nat → Bool
  lpAccrued : Nat → Nat
  protoAccrued : Nat → Nat
  locked : Bool

/-- A receiver's `executeOperation` callback as the provider sees it:
given `token`, `amount`, `fee`, `params` and the chain state, it either
reverts (`none`) or produces a new state and its boolean return value. -/
abbrev Receiver := Nat → Nat → Nat → Nat → ChainSt → Option (ChainSt × Bool)

/-- The tester contract acting as a `Receiver`: its callback touches only
token balances. -/
def testerReceiver (c : TesterContract) (prov : Nat) : Receiver :=
  fun token amount fee params s =>
    match executeOperation c prov token amount fee params s.bal with
    | .error _ => none
    | .ok (b, r) => some ({ s with bal := b }, r)

/-- Modelled from the spec (section 4.3): the provider's fee,
`floor(amount * feeBasisPoints / 10000)`, in exact integer arithmetic. -/
def computeFee (amount feeBps : Nat) : Nat :=
  amount * feeBps / 10000

/-- Modelled from the spec: the state in which the provider invokes the
receiver's callback — the loan principal has been transferred from the
provider to the receiver and the reentrancy lock is held. -/
def callbackState (prov recv token amount : Nat) (s : ChainSt) : ChainSt :=
  { s with locked := true, bal := moveBal token prov recv amount s.bal }

/-- Modelled from the spec: successful-path finalisation — the fee is split
between liquidity-provider accrual (`fee / 2`) and protocol accrual (the
remainder, so the two shares differ by at most one unit), and the
reentrancy lock is released. -/
def settleLoan (token fee : Nat) (s : ChainSt) : ChainSt :=
  { s with
    locked := false
    lpAccrued := fun t => if t = token then s.lpAccrued t + fee / 2 else s.lpAccrued t
    protoAccrued := fun t => if t = token then s.protoAccrued t + (fee - fee / 2) else s.protoAccrued t }

/-- Modelled from the spec: `FlashLoanProvider.flashloan` (sections 4.2, 4.3
and 7), the repository's external collaborator.  Checks, in order: the
reentrancy lock (a held/not-held lock guarding the whole call), the pool
enabled flag, and available liquidity (the provider's unlent balance of
`token`).  It then lends `amount` to the receiver, invokes the callback, and
accepts the loan only if the callback did not revert, returned `true`, and
left the provider's balance at least `balance-before + fee`
(equivalently, post-callback delta ≥ principal + fee); every failure is a
full revert carrying the spec's error kind. -/
def flashloan (prov recv feeBps : Nat) (rcv : Receiver)
    (token amount params : Nat) (s : ChainSt) : Except Err ChainSt :=
  if s.locked = true then .error .ReentrancyRejected
  else if s.poolEnabled token = false then .error .PoolDisabled
  else if s.bal token prov < amount then .error .InsufficientLiquidity
  else
    let fee := computeFee amount feeBps
    match rcv token amount fee params (callbackState prov recv token amount s) with
    | none => .error .InsufficientRepayment
    | some (s3, ok) =>
        if ok = false then .error .InsufficientRepayment
        else if s3.bal token prov < s.bal token prov + fee then .error .InsufficientRepayment
        else .ok (settleLoan token fee s3)

/-- The enclosing EVM transaction: the state produced by the call is applied
only when the call succeeds; a revert leaves the pre-state untouched
(atomic rollback). -/
def runTx (f : ChainSt → Except Err ChainSt) (s : ChainSt) : ChainSt :=
  match f s with
  | .ok s' => s'
  | .error _ => s

/-- Whether an outcome is a non-reverted (committed) call. -/
def exceptOk : Except Err ChainSt → Bool
  | .ok _ => true
  | .error _ => false

/-- `FlashLoanTester.testFlashLoan`: owner-only; encodes the chosen mode as
`params` and calls the provider's `flashloan`.  Returns the (unchanged)
contract storage alongside the new chain state. -/
def testFlashLoan (c : TesterContract) (feeBps msgSender token amount : Nat)
    (mode : TestMode) (s : ChainSt) : Except Err (TesterContract × ChainSt) :=
  if msgSender = c.owner then
    match flashloan c.flashLoanProvider c.self feeBps
        (testerReceiver c c.flashLoanProvider) token amount (encodeMode mode) s with
    | .error e => .error e
    | .ok s' => .ok (c, s')
  else .error .notOwner

/-- `FlashLoanTester.fundContract`: owner-only; pulls `amount` of `token`
from the caller into the contract (the ERC-20 allowance bookkeeping is not
needed by any claim and is omitted from the token model). -/
def fundContract (c : TesterContract) (msgSender token amount : Nat)
    (bal : Balances) : Except Err (TesterContract × Balances) :=
  if msgSender = c.owner then
    match erc20Transfer token msgSender c.self amount bal with
    | .error e => .error e
    | .ok b => .ok (c, b)
  else .error .notOwner

/-- `FlashLoanTester.withdraw`: owner-only; sends `amount` of `token` from
the contract to the owner. -/
def withdraw (c : TesterContract) (msgSender token amount : Nat)
    (bal : Balances) : Except Err (TesterContract × Balances) :=
  if msgSender = c.owner then
    match erc20Transfer token c.self c.owner amount bal with
    | .error e => .error e
    | .ok b => .ok (c, b)
  else .error .notOwner

/-- A receiver that repays exactly `amount + fee` to the provider and
returns `true` (reverting only if it lacks the balance to do so). -/
def exactRepayer (prov recv : Nat) : Receiver :=
  fun token amount fee _ s =>
    match erc20Transfer token recv prov (amount + fee) s.bal with
    | .error _ => none
    | .ok b => some ({ s with bal := b }, true)

/-- A receiver that first attempts a nested `flashloan` on the same provider
from inside its callback, keeps the nested call's state when it somehow
succeeded, ignores the rejection otherwise, and then behaves as `rcv`. -/
def reentrantThen (prov recv feeBps : Nat) (inner rcv : Receiver) : Receiver :=
  fun token amount fee params s =>
    match flashloan prov recv feeBps inner token amount params s with
    | .ok s' => rcv token amount fee params s'
    | .error _ => rcv token amount fee params s


/-- A concrete deployment used by the witness theorems: the provider at
address 0, the tester contract at address 1, deployed by the owner at
address 2, with a single token at address 7. -/
def demoTester : TesterContract := mkTester 1 2 0

/-- Concrete balances: the provider pool holds 1000000 units of token 7 and
the tester contract holds 50 (its pre-funded fee buffer). -/
def demoBal : Balances :=
  fun t a => if t = 7 ∧ a = 0 then 1000000 else if t = 7 ∧ a = 1 then 50 else 0

/-- A concrete chain state with the pool for token 7 enabled and the
reentrancy lock free. -/
def demoChain : ChainSt :=
  { bal := demoBal
    poolEnabled := fun t => t == 7
    lpAccrued := fun _ => 0
    protoAccrued := fun _ => 0
    locked := false }

/-- The loanAmount constant of examples/nodejs/2-execute-flashloan.cjs
line 84: 100 tokens at 18 decimals. -/
def jsLoanAmount : Nat := 100000000000000000000

/-- The fee computed by 2-execute-flashloan.cjs line 85 as
loanAmount / 10000n, BigInt floor division. -/
def jsFee : Nat := jsLoanAmount / 10000

/-- The demo chain state with the reentrancy lock held, as seen by a
callback attempting a nested flashloan. -/
def lockedChain : ChainSt := { demoChain with locked := true }

end FlashLoanSpec


namespace FlashLoanSpec

lemma setBal_same (bal : Balances) (token acct v : Nat) :
    setBal bal token acct v token acct = v := by
  simp [setBal]

lemma setBal_other (bal : Balances) (token acct v t a : Nat) (h : ¬ (t = token ∧ a = acct)) :
    setBal bal token acct v t a = bal t a := by
  simp [setBal, h]

lemma moveBal_rcpt (token sender rcpt amt : Nat) (bal : Balances) (h : sender ≠ rcpt) :
    moveBal token sender rcpt amt bal token rcpt = bal token rcpt + amt := by
  unfold moveBal
  rw [setBal_same, setBal_other]
  exact fun hc => h hc.2.symm

lemma moveBal_sender (token sender rcpt amt : Nat) (bal : Balances) (h : sender ≠ rcpt) :
    moveBal token sender rcpt amt bal token sender = bal token sender - amt := by
  unfold moveBal
  rw [setBal_other, setBal_same]
  exact fun hc => h (hc.2)

lemma runTx_error (f : ChainSt → Except Err ChainSt) (s : ChainSt) (e : Err)
    (h : f s = .error e) : runTx f s = s := by
  unfold runTx
  rw [h]

lemma flashloan_locked (prov recv feeBps : Nat) (rcv : Receiver)
    (token amount params : Nat) (s : ChainSt) (h : s.locked = true) :
    flashloan prov recv feeBps rcv token amount params s = .error .ReentrancyRejected := by
  unfold flashloan
  rw [if_pos h]

lemma flashloan_run (prov recv feeBps : Nat) (rcv : Receiver)
    (token amount params : Nat) (s : ChainSt)
    (hl : s.locked = false) (hen : s.poolEnabled token = true)
    (hliq : amount ≤ s.bal token prov) :
    flashloan prov recv feeBps rcv token amount params s =
      match rcv token amount (computeFee amount feeBps) params
          (callbackState prov recv token amount s) with
      | none => .error .InsufficientRepayment
      | some (s3, ok) =>
          if ok = false then .error .InsufficientRepayment
          else if s3.bal token prov < s.bal token prov + computeFee amount feeBps then
            .error .InsufficientRepayment
          else .ok (settleLoan token (computeFee amount feeBps) s3) := by
  unfold flashloan
  rw [if_neg (by simp [hl]), if_neg (by simp [hen]), if_neg (Nat.not_lt.mpr hliq)]


/-- C1: for every flashloan call — any token, amount, fee configuration and
any receiver behavior whatsoever — the provider's balance of the borrowed
token after the enclosing transaction is at least its balance before it.
A committed call has passed the repayment check (balance delta at least
principal + fee), and a reverted call applies no state at all (`runTx`
keeps the pre-state on error), so a lent-but-unrepaid state is never
observable outside the transaction. -/
theorem provider_balance_invariant :
    ∀ (prov recv feeBps : Nat) (rcv : Receiver) (token amount params : Nat) (s : ChainSt),
      s.bal token prov ≤ (runTx (flashloan prov recv feeBps rcv token amount params) s).bal token prov := by
  intro prov recv feeBps rcv token amount params s
  unfold runTx
  cases hres : flashloan prov recv feeBps rcv token amount params s with
  | error e => exact le_refl _
  | ok s' =>
    unfold flashloan at hres
    split at hres
    · cases hres
    split at hres
    · cases hres
    split at hres
    · cases hres
    dsimp only at hres
    split at hres
    · cases hres
    next s3 ok heq =>
      split at hres
      · cases hres
      split at hres
      · cases hres
      next h1 h2 =>
        cases hres
        show s.bal token prov ≤ (settleLoan token (computeFee amount feeBps) s3).bal token prov
        have hb : (settleLoan token (computeFee amount feeBps) s3).bal = s3.bal := rfl
        rw [hb]
        omega


/-- C7: for every caller other than the configured provider address,
`executeOperation` reverts immediately with the Unauthorized error kind
(`onlyFlashLoanProvider`) and no balance change; and this is the sole
authorization check: the outcome depends on the caller only through
whether it equals the stored provider address. -/
theorem unauthorized_caller_reverts :
    (∀ (c : TesterContract) (sender token amount fee params : Nat) (bal : Balances),
       sender ≠ c.flashLoanProvider →
       executeOperation c sender token amount fee params bal = .error .onlyFlashLoanProvider)
    ∧ (∀ (c : TesterContract) (s1 s2 token amount fee params : Nat) (bal : Balances),
       (s1 = c.flashLoanProvider ↔ s2 = c.flashLoanProvider) →
       executeOperation c s1 token amount fee params bal
         = executeOperation c s2 token amount fee params bal) := by
  constructor
  · intro c sender token amount fee params bal h
    unfold executeOperation
    rw [if_neg h]
  · intro c s1 s2 token amount fee params bal hiff
    unfold executeOperation
    by_cases h1 : s1 = c.flashLoanProvider
    · rw [if_pos h1, if_pos (hiff.mp h1)]
    · rw [if_neg h1, if_neg (fun h2 => h1 (hiff.mpr h2))]

/-- C10: decoding inverts encoding on every TestMode value; only encoded
mode words decode at all; a params word that is no TestMode makes the
callback revert at the decode; and `testFlashLoan` hands the provider
exactly the encoded mode as the opaque params, so the strategy run inside
the callback is the mode the owner selected. -/
theorem mode_roundtrip :
    (∀ m : TestMode, decodeMode (encodeMode m) = some m)
    ∧ (∀ (p : Nat) (m : TestMode), decodeMode p = some m → p = encodeMode m)
    ∧ (∀ (c : TesterContract) (token amount fee p : Nat) (bal : Balances),
         decodeMode p = none →
         executeOperation c c.flashLoanProvider token amount fee p bal = .error .decodeFailed)
    ∧ (∀ (c : TesterContract) (feeBps sender token amount : Nat) (mode : TestMode) (s : ChainSt),
         sender = c.owner →
         testFlashLoan c feeBps sender token amount mode s =
           (flashloan c.flashLoanProvider c.self feeBps (testerReceiver c c.flashLoanProvider)
              token amount (encodeMode mode) s).map (fun s' => (c, s'))) := by
  refine ⟨?_, ?_, ?_, ?_⟩
  · intro m
    cases m <;> rfl
  · intro p m h
    unfold decodeMode at h
    split_ifs at h with h0 h1 h2 <;> cases h <;> simp [encodeMode] <;> assumption
  · intro c token amount fee p bal h
    unfold executeOperation
    rw [if_pos rfl, h]
  · intro c feeBps sender token amount mode s h
    unfold testFlashLoan
    rw [if_pos h]
    cases hf : flashloan c.flashLoanProvider c.self feeBps (testerReceiver c c.flashLoanProvider)
        token amount (encodeMode mode) s <;> simp [Except.map]


/-- C8: a flashloan attempted while the reentrancy lock is held — as every
nested call from inside a callback is, since callbacks run in the locked
state — fails with `ReentrancyRejected`; an outer call whose receiver
attempts such a nested call and ignores the rejection behaves exactly as
the same call without the attempt; and the lock is released on every exit
path: free in every committed final state, and restored by rollback on
every revert. -/
theorem reentrancy_guard :
    (∀ (prov recv feeBps : Nat) (rcv : Receiver) (token amount params : Nat) (s : ChainSt),
       s.locked = true →
       flashloan prov recv feeBps rcv token amount params s = .error .ReentrancyRejected)
    ∧ (∀ (prov recv feeBps : Nat) (inner rcv : Receiver) (token amount params : Nat) (s : ChainSt),
       flashloan prov recv feeBps (reentrantThen prov recv feeBps inner rcv) token amount params s
         = flashloan prov recv feeBps rcv token amount params s)
    ∧ (∀ (prov recv feeBps : Nat) (rcv : Receiver) (token amount params : Nat) (s s' : ChainSt),
       flashloan prov recv feeBps rcv token amount params s = .ok s' → s'.locked = false) := by
  refine ⟨?_, ?_, ?_⟩
  · exact flashloan_locked
  · intro prov recv feeBps inner rcv token amount params s
    unfold flashloan
    by_cases h1 : s.locked = true
    · simp only [if_pos h1]
    · simp only [if_neg h1]
      by_cases h2 : s.poolEnabled token = false
      · simp only [if_pos h2]
      · simp only [if_neg h2]
        by_cases h3 : s.bal token prov < amount
        · simp only [if_pos h3]
        · simp only [if_neg h3]
          have hre : ∀ fee, reentrantThen prov recv feeBps inner rcv token amount fee params
              (callbackState prov recv token amount s)
              = rcv token amount fee params (callbackState prov recv token amount s) := by
            intro fee
            unfold reentrantThen
            rw [flashloan_locked prov recv feeBps inner token amount params
              (callbackState prov recv token amount s) rfl]
          rw [hre]
  · intro prov recv feeBps rcv token amount params s s' hres
    unfold flashloan at hres
    split at hres
    · cases hres
    split at hres
    · cases hres
    split at hres
    · cases hres
    dsimp only at hres
    split at hres
    · cases hres
    next s3 ok heq =>
      split at hres
      · cases hres
      split at hres
      · cases hres
      cases hres
      rfl

/-- C9: `testFlashLoan`, `fundContract` and `withdraw` all revert with the
notOwner error, with no state change and no token movement, whenever the
caller is not the owner recorded at construction time; and no successful
call of any of them changes the stored owner or provider address. -/
theorem only_owner_guard :
    (∀ (selfAddr deployer provAddr sender feeBps token amount : Nat) (mode : TestMode) (s : ChainSt),
       sender ≠ deployer →
       testFlashLoan (mkTester selfAddr deployer provAddr) feeBps sender token amount mode s
         = .error .notOwner)
    ∧ (∀ (selfAddr deployer provAddr sender token amount : Nat) (bal : Balances),
       sender ≠ deployer →
       fundContract (mkTester selfAddr deployer provAddr) sender token amount bal = .error .notOwner)
    ∧ (∀ (selfAddr deployer provAddr sender token amount : Nat) (bal : Balances),
       sender ≠ deployer →
       withdraw (mkTester selfAddr deployer provAddr) sender token amount bal = .error .notOwner)
    ∧ (∀ (c : TesterContract) (feeBps sender token amount : Nat) (mode : TestMode)
         (s : ChainSt) (c' : TesterContract) (s' : ChainSt),
       testFlashLoan c feeBps sender token amount mode s = .ok (c', s') → c' = c)
    ∧ (∀ (c : TesterContract) (sender token amount : Nat) (bal : Balances)
         (c' : TesterContract) (b : Balances),
       fundContract c sender token amount bal = .ok (c', b) → c' = c)
    ∧ (∀ (c : TesterContract) (sender token amount : Nat) (bal : Balances)
         (c' : TesterContract) (b : Balances),
       withdraw c sender token amount bal = .ok (c', b) → c' = c) := by
  refine ⟨?_, ?_, ?_, ?_, ?_, ?_⟩
  · intro selfAddr deployer provAddr sender feeBps token amount mode s h
    unfold testFlashLoan
    exact if_neg h
  · intro selfAddr deployer provAddr sender token amount bal h
    unfold fundContract
    exact if_neg h
  · intro selfAddr deployer provAddr sender token amount bal h
    unfold withdraw
    exact if_neg h
  · intro c feeBps sender token amount mode s c' s' h
    unfold testFlashLoan at h
    split at h
    · split at h
      · cases h
      · cases h; rfl
    · cases h
  · intro c sender token amount bal c' b h
    unfold fundContract at h
    split at h
    · split at h
      · cases h
      · cases h; rfl
    · cases h
  · intro c sender token amount bal c' b h
    unfold withdraw at h
    split at h
    · split at h
      · cases h
      · cases h; rfl
    · cases h


/-- C4: in SUCCESS mode, whenever `executeOperation` is invoked by the
provider and completes, it has moved exactly amount + fee of the token
from the tester contract to the provider's address and returned true; the
repayment is the balance mutation itself, the boolean merely reported. -/
theorem success_mode_repays (c : TesterContract) (token amount fee : Nat)
    (bal bal' : Balances) (r : Bool)
    (hne : c.self ≠ c.flashLoanProvider)
    (h : executeOperation c c.flashLoanProvider token amount fee (encodeMode .SUCCESS) bal
           = .ok (bal', r)) :
    bal' token c.flashLoanProvider = bal token c.flashLoanProvider + (amount + fee)
    ∧ bal' token c.self = bal token c.self - (amount + fee)
    ∧ r = true := by
  unfold executeOperation at h
  rw [if_pos rfl] at h
  have hd : decodeMode (encodeMode .SUCCESS) = some .SUCCESS := rfl
  rw [hd] at h
  dsimp only at h
  split at h
  · cases h
  next hov =>
    split at h
    · cases h
    next b heq =>
      injection h with hpair
      injection hpair with hb hr
      subst hb
      subst hr
      unfold erc20Transfer at heq
      split at heq
      · cases heq
      next hbal =>
        injection heq with hbm
        subst hbm
        refine ⟨?_, ?_, rfl⟩
        · exact moveBal_rcpt token c.self c.flashLoanProvider (amount + fee) bal hne
        · exact moveBal_sender token c.self c.flashLoanProvider (amount + fee) bal hne

/-- C2: if the receiver's callback reverts, or returns false, or leaves the
provider's balance below balance-before + fee (repaying strictly less than
amount + fee, including repaying nothing), then the flashloan call reverts
with `InsufficientRepayment` and the whole transaction leaves the chain
state — the initial loan transfer included — exactly as it was. -/
theorem insufficient_repayment_reverts (prov recv feeBps : Nat) (rcv : Receiver)
    (token amount params : Nat) (s : ChainSt)
    (hl : s.locked = false) (hen : s.poolEnabled token = true)
    (hliq : amount ≤ s.bal token prov) :
    (rcv token amount (computeFee amount feeBps) params (callbackState prov recv token amount s)
        = none →
      flashloan prov recv feeBps rcv token amount params s = .error .InsufficientRepayment
      ∧ runTx (flashloan prov recv feeBps rcv token amount params) s = s)
    ∧ (∀ s3 : ChainSt,
        rcv token amount (computeFee amount feeBps) params (callbackState prov recv token amount s)
          = some (s3, false) →
        flashloan prov recv feeBps rcv token amount params s = .error .InsufficientRepayment
        ∧ runTx (flashloan prov recv feeBps rcv token amount params) s = s)
    ∧ (∀ (s3 : ChainSt) (b : Bool),
        rcv token amount (computeFee amount feeBps) params (callbackState prov recv token amount s)
          = some (s3, b) →
        s3.bal token prov < s.bal token prov + computeFee amount feeBps →
        flashloan prov recv feeBps rcv token amount params s = .error .InsufficientRepayment
        ∧ runTx (flashloan prov recv feeBps rcv token amount params) s = s) := by
  have hrun := flashloan_run prov recv feeBps rcv token amount params s hl hen hliq
  refine ⟨?_, ?_, ?_⟩
  · intro hcb
    have he : flashloan prov recv feeBps rcv token amount params s
        = .error .InsufficientRepayment := by rw [hrun, hcb]
    exact ⟨he, runTx_error _ s _ he⟩
  · intro s3 hcb
    have he : flashloan prov recv feeBps rcv token amount params s
        = .error .InsufficientRepayment := by
      rw [hrun, hcb]
      simp
    exact ⟨he, runTx_error _ s _ he⟩
  · intro s3 b hcb hlt
    have he : flashloan prov recv feeBps rcv token amount params s
        = .error .InsufficientRepayment := by
      rw [hrun, hcb]
      cases b
      · simp
      · dsimp only
        rw [if_neg (by simp), if_pos hlt]
    exact ⟨he, runTx_error _ s _ he⟩


/-- C3: with a positive fee, the tester in FAIL_PARTIAL mode (which
transfers back exactly the principal and returns true) is treated exactly
like FAIL_NO_REPAY (which transfers nothing): both flashloan calls end
reverted with `InsufficientRepayment` and leave the state untouched —
there is no partial-credit or partial-fee acceptance. -/
theorem fail_partial_equals_no_repay (c : TesterContract) (feeBps token amount : Nat) (s : ChainSt)
    (hne : c.self ≠ c.flashLoanProvider)
    (hl : s.locked = false) (hen : s.poolEnabled token = true)
    (hliq : amount ≤ s.bal token c.flashLoanProvider)
    (hfee : 0 < computeFee amount feeBps) :
    flashloan c.flashLoanProvider c.self feeBps (testerReceiver c c.flashLoanProvider)
        token amount (encodeMode .FAIL_PARTIAL) s = .error .InsufficientRepayment
    ∧ flashloan c.flashLoanProvider c.self feeBps (testerReceiver c c.flashLoanProvider)
        token amount (encodeMode .FAIL_NO_REPAY) s = .error .InsufficientRepayment
    ∧ runTx (flashloan c.flashLoanProvider c.self feeBps (testerReceiver c c.flashLoanProvider)
        token amount (encodeMode .FAIL_PARTIAL)) s = s
    ∧ runTx (flashloan c.flashLoanProvider c.self feeBps (testerReceiver c c.flashLoanProvider)
        token amount (encodeMode .FAIL_NO_REPAY)) s = s := by
  have hps : c.flashLoanProvider ≠ c.self := fun h => hne h.symm
  have hrunP := flashloan_run c.flashLoanProvider c.self feeBps
      (testerReceiver c c.flashLoanProvider) token amount (encodeMode .FAIL_PARTIAL) s hl hen hliq
  have hrunN := flashloan_run c.flashLoanProvider c.self feeBps
      (testerReceiver c c.flashLoanProvider) token amount (encodeMode .FAIL_NO_REPAY) s hl hen hliq
  have hcbSelf : (callbackState c.flashLoanProvider c.self token amount s).bal token c.self
      = s.bal token c.self + amount := moveBal_rcpt _ _ _ _ _ hps
  have hcbProv :
      (callbackState c.flashLoanProvider c.self token amount s).bal token c.flashLoanProvider
      = s.bal token c.flashLoanProvider - amount := moveBal_sender _ _ _ _ _ hps
  have hcbP : testerReceiver c c.flashLoanProvider token amount (computeFee amount feeBps)
      (encodeMode .FAIL_PARTIAL) (callbackState c.flashLoanProvider c.self token amount s)
      = some ({ callbackState c.flashLoanProvider c.self token amount s with
                bal := moveBal token c.self c.flashLoanProvider amount
                  (callbackState c.flashLoanProvider c.self token amount s).bal }, true) := by
    unfold testerReceiver executeOperation
    rw [if_pos rfl]
    rw [show decodeMode (encodeMode .FAIL_PARTIAL) = some .FAIL_PARTIAL from rfl]
    dsimp only
    unfold erc20Transfer
    rw [if_neg (by rw [hcbSelf]; omega)]
  have hcbN : testerReceiver c c.flashLoanProvider token amount (computeFee amount feeBps)
      (encodeMode .FAIL_NO_REPAY) (callbackState c.flashLoanProvider c.self token amount s)
      = some (callbackState c.flashLoanProvider c.self token amount s, false) := by
    unfold testerReceiver executeOperation
    rw [if_pos rfl]
    rw [show decodeMode (encodeMode .FAIL_NO_REPAY) = some .FAIL_NO_REPAY from rfl]
  have hP : flashloan c.flashLoanProvider c.self feeBps (testerReceiver c c.flashLoanProvider)
      token amount (encodeMode .FAIL_PARTIAL) s = .error .InsufficientRepayment := by
    rw [hrunP, hcbP]
    dsimp only
    rw [if_neg (by simp)]
    rw [if_pos (by
      show moveBal token c.self c.flashLoanProvider amount
          (callbackState c.flashLoanProvider c.self token amount s).bal token c.flashLoanProvider
          < s.bal token c.flashLoanProvider + computeFee amount feeBps
      rw [moveBal_rcpt _ _ _ _ _ hne, hcbProv]
      omega)]
  have hN : flashloan c.flashLoanProvider c.self feeBps (testerReceiver c c.flashLoanProvider)
      token amount (encodeMode .FAIL_NO_REPAY) s = .error .InsufficientRepayment := by
    rw [hrunN, hcbN]
    simp
  exact ⟨hP, hN, runTx_error _ s _ hP, runTx_error _ s _ hN⟩


/-- C5 (amended): for a pool-enabled token with amount within available
liquidity and a receiver that repays exactly amount + fee, the flashloan
call succeeds, the provider's token balance after the call equals its
balance before the call plus the fee (the principal is returned in full;
with a zero fee the balance is exactly preserved), and the fee is split
into liquidity-provider accrual fee / 2 and protocol accrual
fee - fee / 2 — shares that sum to the fee and differ by at most one
unit of integer rounding. -/
theorem exact_repayment_success (prov recv feeBps token amount params : Nat) (s : ChainSt)
    (hne : recv ≠ prov)
    (hl : s.locked = false) (hen : s.poolEnabled token = true)
    (hliq : amount ≤ s.bal token prov)
    (hfund : computeFee amount feeBps ≤ s.bal token recv) :
    exceptOk (flashloan prov recv feeBps (exactRepayer prov recv) token amount params s) = true
    ∧ (runTx (flashloan prov recv feeBps (exactRepayer prov recv) token amount params) s).bal
        token prov = s.bal token prov + computeFee amount feeBps
    ∧ (runTx (flashloan prov recv feeBps (exactRepayer prov recv) token amount params) s).lpAccrued
        token = s.lpAccrued token + computeFee amount feeBps / 2
    ∧ (runTx (flashloan prov recv feeBps (exactRepayer prov recv) token amount params) s).protoAccrued
        token = s.protoAccrued token + (computeFee amount feeBps - computeFee amount feeBps / 2)
    ∧ computeFee amount feeBps / 2 + (computeFee amount feeBps - computeFee amount feeBps / 2)
        = computeFee amount feeBps
    ∧ computeFee amount feeBps - computeFee amount feeBps / 2 ≤ computeFee amount feeBps / 2 + 1 := by
  have hpr : prov ≠ recv := fun h => hne h.symm
  have hrun := flashloan_run prov recv feeBps (exactRepayer prov recv) token amount params s
    hl hen hliq
  have hcbRecv : (callbackState prov recv token amount s).bal token recv
      = s.bal token recv + amount := moveBal_rcpt _ _ _ _ _ hpr
  have hcbProv : (callbackState prov recv token amount s).bal token prov
      = s.bal token prov - amount := moveBal_sender _ _ _ _ _ hpr
  have hcb : exactRepayer prov recv token amount (computeFee amount feeBps) params
      (callbackState prov recv token amount s)
      = some ({ callbackState prov recv token amount s with
                bal := moveBal token recv prov (amount + computeFee amount feeBps)
                  (callbackState prov recv token amount s).bal }, true) := by
    unfold exactRepayer erc20Transfer
    rw [if_neg (by rw [hcbRecv]; omega)]
  have hrepaid : moveBal token recv prov (amount + computeFee amount feeBps)
      (callbackState prov recv token amount s).bal token prov
      = s.bal token prov + computeFee amount feeBps := by
    rw [moveBal_rcpt _ _ _ _ _ hne, hcbProv]
    omega
  have hflash : flashloan prov recv feeBps (exactRepayer prov recv) token amount params s
      = .ok (settleLoan token (computeFee amount feeBps)
          ({ callbackState prov recv token amount s with
             bal := moveBal token recv prov (amount + computeFee amount feeBps)
               (callbackState prov recv token amount s).bal })) := by
    rw [hrun, hcb]
    dsimp only
    rw [if_neg (by simp), if_neg (by rw [hrepaid]; omega)]
  have hrtx : runTx (flashloan prov recv feeBps (exactRepayer prov recv) token amount params) s
      = settleLoan token (computeFee amount feeBps)
          ({ callbackState prov recv token amount s with
             bal := moveBal token recv prov (amount + computeFee amount feeBps)
               (callbackState prov recv token amount s).bal }) := by
    unfold runTx
    rw [hflash]
  refine ⟨by rw [hflash]; rfl, ?_, ?_, ?_, by omega, by omega⟩
  · rw [hrtx]
    show moveBal token recv prov (amount + computeFee amount feeBps)
        (callbackState prov recv token amount s).bal token prov
        = s.bal token prov + computeFee amount feeBps
    exact hrepaid
  · rw [hrtx]
    show (if token = token then
        (callbackState prov recv token amount s).lpAccrued token + computeFee amount feeBps / 2
      else (callbackState prov recv token amount s).lpAccrued token)
        = s.lpAccrued token + computeFee amount feeBps / 2
    rw [if_pos rfl]
    rfl
  · rw [hrtx]
    show (if token = token then
        (callbackState prov recv token amount s).protoAccrued token
          + (computeFee amount feeBps - computeFee amount feeBps / 2)
      else (callbackState prov recv token amount s).protoAccrued token)
        = s.protoAccrued token + (computeFee amount feeBps - computeFee amount feeBps / 2)
    rw [if_pos rfl]
    rfl


/-- C6: the fee is floor(amount * 1 / 10000) in exact integer arithmetic:
the node example's fee, loanAmount / 10000n at 100 tokens of 18 decimals,
agrees with the provider formula at 1 basis point and equals 0.01 tokens;
every amount below 10000 yields fee 0; and a zero-fee loan repaid with
exactly the principal succeeds — there is no minimum-fee floor. -/
theorem fee_formula :
    jsFee = computeFee jsLoanAmount 1
    ∧ jsFee = 10000000000000000
    ∧ (∀ amount : Nat, amount < 10000 → computeFee amount 1 = 0)
    ∧ computeFee 9999 1 = 0
    ∧ exceptOk (flashloan 0 1 1 (exactRepayer 0 1) 7 9999 0 demoChain) = true := by
  refine ⟨?_, ?_, ?_, rfl, rfl⟩
  · show jsLoanAmount / 10000 = jsLoanAmount * 1 / 10000
    rw [Nat.mul_one]
  · rfl
  · intro a ha
    unfold computeFee
    rw [Nat.mul_one]
    exact Nat.div_eq_of_lt ha

/-- Witness for the C6 theorem: its universally quantified conjunct applied
at the concrete amount 123. -/
theorem fee_formula_witness : computeFee 123 1 = 0 :=
  fee_formula.2.2.1 123 (by decide)

/-- C5 counterexample: at amount 20000 with a 1-basis-point fee (fee = 2),
pool enabled, ample liquidity and an exactly-repaying receiver, the call
succeeds and yet the provider's token balance after the call differs from
its balance before — the claim that the balance after equals the balance
before is false whenever the fee is positive. -/
theorem balance_preservation_counterexample :
    demoChain.poolEnabled 7 = true
    ∧ 20000 ≤ demoChain.bal 7 0
    ∧ exceptOk (flashloan 0 1 1 (exactRepayer 0 1) 7 20000 0 demoChain) = true
    ∧ (runTx (flashloan 0 1 1 (exactRepayer 0 1) 7 20000 0) demoChain).bal 7 0
        ≠ demoChain.bal 7 0 := by
  exact ⟨rfl, by decide, rfl, by decide⟩

/-- Witness for the C5 theorem at the concrete demo deployment. -/
theorem exact_repayment_success_witness :
    exceptOk (flashloan 0 1 1 (exactRepayer 0 1) 7 100000 0 demoChain) = true :=
  (exact_repayment_success 0 1 1 7 100000 0 demoChain (by decide) rfl rfl (by decide)
    (by decide)).1

/-- Witness for the C2 theorem: the tester in FAIL_NO_REPAY mode at the
concrete demo deployment. -/
theorem insufficient_repayment_witness :
    flashloan 0 1 1 (testerReceiver demoTester 0) 7 100000 (encodeMode .FAIL_NO_REPAY) demoChain
      = .error .InsufficientRepayment :=
  ((insufficient_repayment_reverts 0 1 1 (testerReceiver demoTester 0) 7 100000
      (encodeMode .FAIL_NO_REPAY) demoChain rfl rfl (by decide)).2.1
    (callbackState 0 1 7 100000 demoChain) rfl).1

/-- Witness for the C3 theorem at the concrete demo deployment. -/
theorem fail_partial_witness :
    flashloan demoTester.flashLoanProvider demoTester.self 1
        (testerReceiver demoTester demoTester.flashLoanProvider) 7 100000
        (encodeMode .FAIL_PARTIAL) demoChain
      = .error .InsufficientRepayment :=
  (fail_partial_equals_no_repay demoTester 1 7 100000 demoChain (by decide) rfl rfl (by decide)
    (by decide)).1

/-- Witness for the C4 theorem: a concrete SUCCESS-mode callback moving
30 + 10 units to the provider. -/
theorem success_mode_witness :
    moveBal 7 1 0 (30 + 10) demoBal 7 0 = demoBal 7 0 + (30 + 10)
    ∧ moveBal 7 1 0 (30 + 10) demoBal 7 1 = demoBal 7 1 - (30 + 10)
    ∧ true = true :=
  success_mode_repays demoTester 7 30 10 demoBal (moveBal 7 1 0 (30 + 10) demoBal) true
    (by decide) rfl

/-- Witness for the C7 theorem: the unauthorized caller at address 5. -/
theorem unauthorized_witness :
    executeOperation demoTester 5 7 100 1 0 demoBal = .error .onlyFlashLoanProvider :=
  unauthorized_caller_reverts.1 demoTester 5 7 100 1 0 demoBal (by decide)

/-- Witness for the C8 theorem: a flashloan attempted on the locked demo
state is rejected. -/
theorem reentrancy_witness :
    flashloan 0 1 1 (exactRepayer 0 1) 7 5 0 lockedChain = .error .ReentrancyRejected :=
  reentrancy_guard.1 0 1 1 (exactRepayer 0 1) 7 5 0 lockedChain rfl

/-- Witness for the C9 theorem: a non-owner caller at address 5. -/
theorem only_owner_witness :
    testFlashLoan (mkTester 1 2 0) 1 5 7 100 .SUCCESS demoChain = .error .notOwner :=
  only_owner_guard.1 1 2 0 5 1 7 100 .SUCCESS demoChain (by decide)

/-- Witness for the C10 theorem: the undecodable params word 5 makes the
callback revert. -/
theorem mode_roundtrip_witness :
    executeOperation demoTester 0 7 100 1 5 demoBal = .error .decodeFailed :=
  mode_roundtrip.2.2.1 demoTester 7 100 1 5 demoBal rfl

end FlashLoanSpec
